import Mathlib

/-!
Shallow embedding of the Auto-Monitoring Session Engine of claude-code-vision
(src/services/monitoring_session_manager.py) and of the Pillow image processor
(src/services/image_processor.py), with the theorems that settle the spec
claims about them.

Conventions of the embedding:
* timestamps are abstract `Nat` tags (only equality and presence matter);
* wall-clock elapsed time is carried in seconds as `Int`; the Python
  comparison `elapsed_seconds / 60 >= max_duration_minutes` is rendered as
  `60 * max_duration_minutes <= elapsed_seconds`, which is equivalent over
  the exact rationals;
* the idle reading (a Python float) is modelled as `Option ℚ`;
* content digests are abstract `Nat`s; temp-file paths are `Nat` ids;
* external collaborators (screen capture, hash, redaction, optimization,
  transmission) are modelled by an environment record fixing the outcome of
  each call made during one tick;
* a Python exception escaping `_perform_capture` is modelled by the `raised`
  flag of the tick result; the worker loop catches it, matching the
  `try/except` at the call site in `_capture_loop`.
-/

namespace Vision

/-- `MonitoringSession` dataclass (src/models/entities.py).  `screenshots`
is never read by the session manager and is omitted. -/
structure Session where
  sid : Nat
  startedAt : Nat
  intervalSeconds : Int
  isActive : Bool
  captureCount : Nat
  lastCaptureAt : Option Nat
  pausedAt : Option Nat
  lastChangeDetectedAt : Option Nat
  previousScreenshotHash : Option Nat
  deriving Repr, DecidableEq

/-- The mutable fields of `MonitoringSessionManager`: the single optional
session slot, the stop event, whether a capture thread object is held, and
a source of fresh session ids standing in for `uuid4()`. -/
structure ManagerState where
  activeSession : Option Session
  stopEvent : Bool
  captureThread : Bool
  nextSid : Nat
  deriving Repr, DecidableEq

/-- Errors raised by `start_session`: `SessionAlreadyActiveError` and the
`ValueError("Interval must be positive")` for a non-positive interval. -/
inductive StartErr where
  | alreadyActive
  | invalidInterval
  deriving Repr, DecidableEq

/-- `SessionNotFoundError`, raised by stop/pause/resume on a missing or
mismatched session id. -/
inductive SessErr where
  | notFound
  deriving Repr, DecidableEq

/-- The configuration fields read by `start_session`. -/
structure StartCfg where
  configIntervalSeconds : Int
  deriving Repr, DecidableEq

/-- `MonitoringSessionManager.start_session`.  A raised exception leaves the
manager state exactly as it was (the Python method mutates nothing before
its checks), so the error branches return `st` unchanged. -/
def start_session (cfg : StartCfg) (st : ManagerState) (now : Nat)
    (intervalSeconds : Option Int) : ManagerState × Except StartErr Session :=
  match st.activeSession with
  | some _ => (st, .error .alreadyActive)
  | none =>
    let interval := intervalSeconds.getD cfg.configIntervalSeconds
    if interval ≤ 0 then
      (st, .error .invalidInterval)
    else
      let s : Session :=
        { sid := st.nextSid
          startedAt := now
          intervalSeconds := interval
          isActive := true
          captureCount := 0
          lastCaptureAt := none
          pausedAt := none
          lastChangeDetectedAt := none
          previousScreenshotHash := none }
      ({ activeSession := some s
         stopEvent := false
         captureThread := true
         nextSid := st.nextSid + 1 }, .ok s)

/-- `MonitoringSessionManager.stop_session`: marks the session inactive,
sets the stop event, joins the thread and clears both the session slot and
the thread reference.  The post-call state is all that is observable. -/
def stop_session (st : ManagerState) (sid : Nat) :
    ManagerState × Except SessErr Unit :=
  match st.activeSession with
  | none => (st, .error .notFound)
  | some s =>
    if s.sid = sid then
      ({ st with activeSession := none, stopEvent := true,
                 captureThread := false }, .ok ())
    else (st, .error .notFound)

/-- `MonitoringSessionManager.pause_session`. -/
def pause_session (st : ManagerState) (sid : Nat) (now : Nat) :
    ManagerState × Except SessErr Unit :=
  match st.activeSession with
  | none => (st, .error .notFound)
  | some s =>
    if s.sid = sid then
      match s.pausedAt with
      | none =>
        ({ st with activeSession := some { s with pausedAt := some now } },
         .ok ())
      | some _ => (st, .ok ())
    else (st, .error .notFound)

/-- `MonitoringSessionManager.resume_session`. -/
def resume_session (st : ManagerState) (sid : Nat) :
    ManagerState × Except SessErr Unit :=
  match st.activeSession with
  | none => (st, .error .notFound)
  | some s =>
    if s.sid = sid then
      match s.pausedAt with
      | some _ =>
        ({ st with activeSession := some { s with pausedAt := none } },
         .ok ())
      | none => (st, .ok ())
    else (st, .error .notFound)

/-- `MonitoringSessionManager.get_active_session`. -/
def get_active_session (st : ManagerState) : Option Session :=
  st.activeSession

/-- Number of live sessions held by the manager (the single optional slot). -/
def liveSessionCount (st : ManagerState) : Nat :=
  match st.activeSession with
  | none => 0
  | some _ => 1

/-- `MonitoringSessionManager._maybe_update_idle_pause`, restricted to the
session it mutates (the manager-level `None` guard is handled by the
caller in the worker-loop embedding).  `idleReading = none` models an
unavailable idle reading. -/
def maybe_update_idle_pause (idlePauseMinutes : Int) (idleReading : Option ℚ)
    (now : Nat) (s : Session) : Session :=
  if idlePauseMinutes ≤ 0 then s
  else
    match idleReading with
    | none => s
    | some idleSeconds =>
      let idleThresholdSeconds : ℚ := idlePauseMinutes * 60
      if idleThresholdSeconds ≤ idleSeconds ∧ s.pausedAt = none then
        { s with pausedAt := some now }
      else if idleSeconds < idleThresholdSeconds ∧ s.pausedAt ≠ none then
        { s with pausedAt := none }
      else s

/-- Outcomes of the external calls made during one `_perform_capture` tick:
whether `capture_full_screen` succeeds, whether `calculate_image_hash`
succeeds and what digest it returns, the privacy configuration read inside
the tick, whether `apply_privacy_zones` succeeds, whether the file is
already within the optimizer's size limit, whether `optimize_image`
succeeds, whether `send_multimodal_prompt` succeeds, and the current
timestamp. -/
structure TickEnv where
  captureOk : Bool
  hashOk : Bool
  hashValue : Nat
  privacyEnabled : Bool
  zonesNonempty : Bool
  redactOk : Bool
  optimizeWithinLimit : Bool
  optimizeOk : Bool
  transmitOk : Bool
  now : Nat

/-- Result of one `_perform_capture` tick.  `raised` models an exception
escaping the method (it is caught by the worker loop).  `created` and
`cleaned` list the ids of the temp files created during the tick and the
ids passed to `cleanup_temp_file` before the tick ended, in order: id 0 is
the captured file, id 1 the redacted file, id 2 the optimized file. -/
structure TickResult where
  sess : Session
  raised : Bool
  transmitAttempted : Bool
  created : List Nat
  cleaned : List Nat
  deriving Repr, DecidableEq

/-- Transmit step of `_perform_capture` (`send_multimodal_prompt` followed
by the stats update and the final `cleanup_temp_file`).  On transmit
failure the exception propagates: no cleanup call is made. -/
def transmitStep (env : TickEnv) (s : Session) (file : Nat)
    (created cleaned : List Nat) : TickResult :=
  if env.transmitOk = false then
    { sess := s, raised := true, transmitAttempted := true,
      created := created, cleaned := cleaned }
  else
    { sess := { s with captureCount := s.captureCount + 1,
                       lastCaptureAt := some env.now }
      raised := false
      transmitAttempted := true
      created := created
      cleaned := cleaned ++ [file] }

/-- Optimization step of `_perform_capture`.  When the encoded size is
already within the limit, `optimize_image` returns the same screenshot
object and no new file; otherwise it writes a new temp file (id 2) and on
success cleans up its input file.  A failure raises without cleanup. -/
def optimizeStep (env : TickEnv) (s : Session) (file : Nat)
    (created cleaned : List Nat) : TickResult :=
  if env.optimizeOk = false then
    { sess := s, raised := true, transmitAttempted := false,
      created := created, cleaned := cleaned }
  else if env.optimizeWithinLimit then
    transmitStep env s file created cleaned
  else
    transmitStep env s 2 (created ++ [2]) (cleaned ++ [file])

/-- Redaction step of `_perform_capture`: `apply_privacy_zones` is invoked
only when privacy is enabled and the zone list is nonempty; on success it
writes the redacted image to a new temp file (id 1) and cleans up its
input (id 0).  A failure raises without cleanup. -/
def redactStep (env : TickEnv) (s : Session) : TickResult :=
  if env.privacyEnabled ∧ env.zonesNonempty then
    if env.redactOk = false then
      { sess := s, raised := true, transmitAttempted := false,
        created := [0], cleaned := [] }
    else
      optimizeStep env s 1 [0, 1] [0]
  else
    optimizeStep env s 0 [0] []

/-- `MonitoringSessionManager._perform_capture` for a live session.
Mirrors the source control flow: capture, change detection against
`previous_screenshot_hash` (which is updated before redaction,
optimization and transmission), privacy zones, size optimization,
transmission, stats update, final temp-file cleanup.  Any stage failure
is re-raised by the method's `except` block with no further cleanup. -/
def perform_capture (cd : Bool) (env : TickEnv) (s : Session) : TickResult :=
  if env.captureOk = false then
    { sess := s, raised := true, transmitAttempted := false,
      created := [], cleaned := [] }
  else if cd ∧ s.previousScreenshotHash.isSome then
    if env.hashOk = false then
      { sess := s, raised := true, transmitAttempted := false,
        created := [0], cleaned := [] }
    else if some env.hashValue = s.previousScreenshotHash then
      { sess := s, raised := false, transmitAttempted := false,
        created := [0], cleaned := [0] }
    else
      redactStep env
        { s with previousScreenshotHash := some env.hashValue,
                 lastChangeDetectedAt := some env.now }
  else if cd then
    if env.hashOk = false then
      { sess := s, raised := true, transmitAttempted := false,
        created := [0], cleaned := [] }
    else
      redactStep env { s with previousScreenshotHash := some env.hashValue }
  else
    redactStep env s

/-- The configuration fields the worker loop reads once at loop start. -/
structure LoopCfg where
  maxDurationMinutes : Int
  idlePauseMinutes : Int
  changeDetection : Bool

/-- How one iteration of `_capture_loop` ended: the loop exited (stop event,
missing session, or max-duration auto-stop), the paused session slept a
short tick, or one capture tick ran (`raised` records whether
`_perform_capture` raised; the loop catches it and continues). -/
inductive LoopStep where
  | exited
  | sleptPaused
  | ranTick (raised : Bool)
  deriving Repr, DecidableEq

/-- One iteration of `MonitoringSessionManager._capture_loop`'s `while`
body.  `elapsedSec` is the wall-clock seconds since the loop recorded
`session_start`; the Python test `elapsed / 60 >= max_duration_minutes`
is rendered as `60 * maxDurationMinutes ≤ elapsedSec`. -/
def capture_loop_iter (cfg : LoopCfg) (st : ManagerState) (elapsedSec : Int)
    (idleReading : Option ℚ) (env : TickEnv) : ManagerState × LoopStep :=
  if st.stopEvent then (st, .exited)
  else
    match st.activeSession with
    | none => (st, .exited)
    | some s =>
      if 0 < cfg.maxDurationMinutes ∧ 60 * cfg.maxDurationMinutes ≤ elapsedSec then
        ({ st with activeSession := some { s with isActive := false },
                   stopEvent := true }, .exited)
      else
        let s1 := maybe_update_idle_pause cfg.idlePauseMinutes idleReading env.now s
        if s1.pausedAt.isSome then
          ({ st with activeSession := some s1 }, .sleptPaused)
        else
          let r := perform_capture cfg.changeDetection env s1
          ({ st with activeSession := some r.sess }, .ranTick r.raised)

/-- A lifecycle event: one public API call or one worker-loop iteration. -/
inductive Call where
  | start (now : Nat) (interval : Option Int)
  | stop (sid : Nat)
  | pause (sid : Nat) (now : Nat)
  | resume (sid : Nat)
  | workerIter (elapsedSec : Int) (idleReading : Option ℚ) (env : TickEnv)

/-- State transition of the manager under one lifecycle event. -/
def applyCall (scfg : StartCfg) (lcfg : LoopCfg) (st : ManagerState) :
    Call → ManagerState
  | .start now iv => (start_session scfg st now iv).1
  | .stop sid => (stop_session st sid).1
  | .pause sid now => (pause_session st sid now).1
  | .resume sid => (resume_session st sid).1
  | .workerIter e ir env => (capture_loop_iter lcfg st e ir env).1

/-- Run a sequence of lifecycle events from a manager state. -/
def runCalls (scfg : StartCfg) (lcfg : LoopCfg) (st : ManagerState)
    (cs : List Call) : ManagerState :=
  cs.foldl (applyCall scfg lcfg) st

/-! ### Size-bounded compressor (`PillowImageProcessor.optimize_image`)

The encoder is abstracted as `encode quality scaleTenths ↦ encoded byte
size`.  The Python float scale factor steps 1.0, 0.9, 0.8, … are carried
in exact tenths (10, 9, 8, …); within the 10-iteration cap the float and
the exact sequences coincide on every comparison the code makes. -/

/-- The `for iteration in range(10)` loop of `optimize_image`.  `fuel` is
the number of save iterations remaining; the triple is (size of the last
save, whether the scale-floor warning fired, number of saves performed).
The entry point calls it with fuel 10, quality 85, scale 1.0. -/
def optLoop (encode : Nat → Nat → Nat) (budget : Nat) :
    Nat → Nat → Nat → Nat × Bool × Nat
  | 0, _, _ => (0, false, 0)
  | fuel + 1, quality, scaleTenths =>
    let size := encode quality scaleTenths
    if size ≤ budget then (size, false, 1)
    else if 50 < quality then
      if fuel = 0 then (size, false, 1)
      else
        let r := optLoop encode budget fuel (quality - 10) scaleTenths
        (r.1, r.2.1, r.2.2 + 1)
    else
      let scale2 := scaleTenths - 1
      if scale2 < 3 then (size, true, 1)
      else if fuel = 0 then (size, false, 1)
      else
        let r := optLoop encode budget fuel quality scale2
        (r.1, r.2.1, r.2.2 + 1)

/-- Observable outcome of `optimize_image`: final encoded size, whether
the scale-floor warning was logged, whether the screenshot was returned
unchanged (already within the limit), and how many save iterations ran. -/
structure OptResult where
  size : Nat
  warned : Bool
  unchanged : Bool
  iterationsUsed : Nat
  deriving Repr, DecidableEq

/-- `PillowImageProcessor.optimize_image`: return unchanged when the
current size is within budget, otherwise run the iterative
quality-then-scale reduction loop with at most 10 iterations starting at
quality 85 and scale 1.0. -/
def optimize_image (encode : Nat → Nat → Nat) (currentSize budget : Nat) :
    OptResult :=
  if currentSize ≤ budget then
    { size := currentSize, warned := false, unchanged := true,
      iterationsUsed := 0 }
  else
    let r := optLoop encode budget 10 85 10
    { size := r.1, warned := r.2.1, unchanged := false,
      iterationsUsed := r.2.2 }

/-! ### Redactor (`PillowImageProcessor.apply_privacy_zones`)

The loaded image is modelled as a pixel function; value 0 is opaque
black.  `ImageDraw.rectangle([(x0, y0), (x1, y1)], fill)` fills the
rectangle inclusive of both corner points, so a zone `{x, y, w, h}`
paints `[x, x+w] × [y, y+h]`; pixels outside the image simply do not
exist in the model (PIL clips them). -/

/-- `PrivacyZone` dataclass fields read by `apply_privacy_zones`. -/
structure PrivacyZone where
  x : Int
  y : Int
  width : Int
  height : Int
  monitor : Option Int
  deriving Repr, DecidableEq

/-- In-memory image: dimensions plus a pixel function (0 = opaque black). -/
structure PixImage where
  width : Nat
  height : Nat
  pix : Nat → Nat → Nat

/-- `ImageDraw.Draw(img).rectangle([(x0, y0), (x1, y1)], fill=black)`:
both corners are included in the filled region. -/
def drawRectBlack (f : Nat → Nat → Nat) (x0 y0 x1 y1 : Int) :
    Nat → Nat → Nat :=
  fun i j =>
    if x0 ≤ (i : Int) ∧ (i : Int) ≤ x1 ∧ y0 ≤ (j : Int) ∧ (j : Int) ≤ y1
    then 0 else f i j

/-- The zone loop of `apply_privacy_zones`: zones whose `monitor` is set
and differs from the source monitor are skipped; each remaining zone is
drawn as a filled black rectangle on the working image. -/
def paintZones (sourceMonitor : Int) :
    List PrivacyZone → (Nat → Nat → Nat) → Nat → Nat → Nat
  | [], f => f
  | z :: zs, f =>
    paintZones sourceMonitor zs
      (if z.monitor = none ∨ z.monitor = some sourceMonitor then
        drawRectBlack f z.x z.y (z.x + z.width) (z.y + z.height)
      else f)

/-- The fields of `Screenshot` observable through `apply_privacy_zones`. -/
structure ScreenshotImg where
  img : PixImage
  sourceMonitor : Int
  privacyZonesApplied : Bool

/-- `PillowImageProcessor.apply_privacy_zones`: with an empty zone list
the same screenshot is returned with `privacy_zones_applied` set and the
pixel data untouched; otherwise the applicable zones are painted black
and the processed screenshot carries the flag. -/
def apply_privacy_zones (sc : ScreenshotImg) (zones : List PrivacyZone) :
    ScreenshotImg :=
  if zones = [] then { sc with privacyZonesApplied := true }
  else
    { sc with
        img := { sc.img with
                   pix := paintZones sc.sourceMonitor zones sc.img.pix }
        privacyZonesApplied := true }

/-- Zone coverage as the code paints it: the closed rectangle
`[x, x+width] × [y, y+height]` (PIL includes both corners). -/
def zoneCoversClosed (z : PrivacyZone) (i j : Nat) : Prop :=
  z.x ≤ (i : Int) ∧ (i : Int) ≤ z.x + z.width ∧
  z.y ≤ (j : Int) ∧ (j : Int) ≤ z.y + z.height

/-- Zone coverage as the spec words it: the half-open rectangle
`[x, x+width) × [y, y+height)`. -/
def zoneCoversHalfOpen (z : PrivacyZone) (i j : Nat) : Prop :=
  z.x ≤ (i : Int) ∧ (i : Int) < z.x + z.width ∧
  z.y ≤ (j : Int) ∧ (j : Int) < z.y + z.height

instance (z : PrivacyZone) (i j : Nat) : Decidable (zoneCoversClosed z i j) := by
  unfold zoneCoversClosed; infer_instance

instance (z : PrivacyZone) (i j : Nat) : Decidable (zoneCoversHalfOpen z i j) := by
  unfold zoneCoversHalfOpen; infer_instance

/-! ### Concrete sample values used by witnesses and counterexamples -/

/-- A freshly started session, as built by `start_session`. -/
def sampleSession : Session :=
  { sid := 1
    startedAt := 0
    intervalSeconds := 30
    isActive := true
    captureCount := 0
    lastCaptureAt := none
    pausedAt := none
    lastChangeDetectedAt := none
    previousScreenshotHash := none }

/-- A manager holding `sampleSession` with its worker thread running. -/
def sampleState : ManagerState :=
  { activeSession := some sampleSession
    stopEvent := false
    captureThread := true
    nextSid := 2 }

/-- A manager with no session. -/
def emptyState : ManagerState :=
  { activeSession := none
    stopEvent := false
    captureThread := false
    nextSid := 0 }

/-- A tick environment in which every external call succeeds. -/
def okEnv : TickEnv :=
  { captureOk := true
    hashOk := true
    hashValue := 7
    privacyEnabled := false
    zonesNonempty := false
    redactOk := true
    optimizeWithinLimit := true
    optimizeOk := true
    transmitOk := true
    now := 9 }

/-- A tick environment whose transmit call fails and whose other calls
succeed (the captured file is already within the optimizer limit, so no
intermediate files are produced). -/
def transmitFailEnv : TickEnv := { okEnv with transmitOk := false }

/-- The worker-loop configuration used in the max-duration scenarios. -/
def mdCfg : LoopCfg :=
  { maxDurationMinutes := 1, idlePauseMinutes := 0, changeDetection := false }

/-- The session used in the change-detection scenarios: its previous
digest is 5, the digest of the last transmitted capture. -/
def c5Session : Session :=
  { sampleSession with previousScreenshotHash := some 5 }

/-- A 2 by 2 image whose pixels all hold the non-black value 7. -/
def sampleImage : PixImage :=
  { width := 2, height := 2, pix := fun _ _ => 7 }

/-- A screenshot of monitor 0 holding `sampleImage`, not yet redacted. -/
def sampleShot : ScreenshotImg :=
  { img := sampleImage, sourceMonitor := 0, privacyZonesApplied := false }

/-- A 1 by 1 privacy zone at the origin, applying to every monitor. -/
def unitZone : PrivacyZone :=
  { x := 0, y := 0, width := 1, height := 1, monitor := none }

/-! ### Theorems -/

/-- C1: a `start_session` call made while a Session exists fails with
`SessionAlreadyActiveError` and returns the manager state exactly
unchanged, so the existing Session is never replaced; and after any
sequence of lifecycle calls the manager holds at most one live Session
(its single optional slot). -/
theorem C1_single_session (scfg : StartCfg) (lcfg : LoopCfg)
    (st : ManagerState) (s : Session) (now : Nat) (iv : Option Int)
    (calls : List Call) (h : st.activeSession = some s) :
    start_session scfg st now iv = (st, .error .alreadyActive) ∧
    liveSessionCount (runCalls scfg lcfg st calls) ≤ 1 := by
  constructor
  · unfold start_session
    rw [h]
  · unfold liveSessionCount
    split <;> simp

/-- Witness for C1 at a concrete active state. -/
theorem C1_single_session_witness :
    sampleState.activeSession = some sampleSession ∧
    start_session ⟨30⟩ sampleState 5 none =
      (sampleState, .error .alreadyActive) :=
  ⟨rfl,
   (C1_single_session ⟨30⟩ ⟨30, 5, true⟩ sampleState sampleSession 5 none []
      rfl).1⟩

/-- C10: every failing `start_session` call leaves the manager state
exactly as it was (same active session, no thread launched, stop event
untouched); with no active session a non-positive effective interval
(the explicit argument, or the configured default when the argument is
omitted) fails with the invalid-interval error, in particular a
non-positive configured default with an omitted argument. -/
theorem C10_start_failure_state (scfg : StartCfg) (st : ManagerState)
    (now : Nat) (iv : Option Int) :
    (∀ e, (start_session scfg st now iv).2 = .error e →
        (start_session scfg st now iv).1 = st) ∧
    (st.activeSession = none → iv.getD scfg.configIntervalSeconds ≤ 0 →
        start_session scfg st now iv = (st, .error .invalidInterval)) ∧
    (st.activeSession = none → iv = none → scfg.configIntervalSeconds ≤ 0 →
        start_session scfg st now iv = (st, .error .invalidInterval)) := by
  refine ⟨?_, ?_, ?_⟩
  · intro e he
    unfold start_session at he ⊢
    cases hA : st.activeSession with
    | some s => rfl
    | none =>
      rw [hA] at he
      by_cases hi : iv.getD scfg.configIntervalSeconds ≤ 0
      · simp [hi]
      · simp [hi] at he
  · intro hA hi
    unfold start_session
    rw [hA]
    simp [hi]
  · intro hA hiv hneg
    unfold start_session
    rw [hA, hiv]
    simp [hneg]

/-- Witness for C10: a non-positive configured default interval with an
omitted argument makes `start_session` fail without touching the state. -/
theorem C10_start_failure_state_witness :
    start_session ⟨0⟩ emptyState 0 none = (emptyState, .error .invalidInterval) :=
  (C10_start_failure_state ⟨0⟩ emptyState 0 none).2.2 rfl rfl (by decide)

/-- C8: on the current session id, pausing an unpaused session stamps
`paused_at` with the first call's timestamp, a second pause keeps that
stamp and still succeeds; resuming clears `paused_at` and a second resume
keeps it cleared and still succeeds — no call raises. -/
theorem C8_pause_resume_idempotent (st : ManagerState) (s : Session)
    (n1 n2 : Nat) (h : st.activeSession = some s) (hp : s.pausedAt = none) :
    pause_session st s.sid n1 =
      ({ st with activeSession := some { s with pausedAt := some n1 } },
       .ok ()) ∧
    pause_session
        { st with activeSession := some { s with pausedAt := some n1 } }
        s.sid n2 =
      ({ st with activeSession := some { s with pausedAt := some n1 } },
       .ok ()) ∧
    resume_session
        { st with activeSession := some { s with pausedAt := some n1 } }
        s.sid =
      ({ st with activeSession := some { s with pausedAt := none } },
       .ok ()) ∧
    resume_session
        { st with activeSession := some { s with pausedAt := none } }
        s.sid =
      ({ st with activeSession := some { s with pausedAt := none } },
       .ok ()) := by
  refine ⟨?_, ?_, ?_, ?_⟩
  · simp [pause_session, h, hp]
  · simp [pause_session]
  · simp [resume_session]
  · simp [resume_session, hp]

/-- Witness for C8 at the concrete sample state. -/
theorem C8_pause_resume_idempotent_witness :
    pause_session sampleState 1 4 =
      ({ sampleState with
           activeSession := some { sampleSession with pausedAt := some 4 } },
       .ok ()) := by
  have h := C8_pause_resume_idempotent sampleState sampleSession 4 6 rfl rfl
  exact h.1

/-- C7: one idle-policy evaluation is a no-op when the threshold is
non-positive or the reading is unavailable; otherwise it sets
`paused_at := now` exactly when idle-seconds reach the threshold in
seconds on an unpaused session, clears `paused_at` exactly when
idle-seconds are below the threshold on a paused session, and changes
nothing in the remaining two cases. -/
theorem C7_idle_policy (m : Int) (reading : Option ℚ) (now : Nat)
    (s : Session) :
    (m ≤ 0 → maybe_update_idle_pause m reading now s = s) ∧
    (reading = none → maybe_update_idle_pause m reading now s = s) ∧
    (∀ idle : ℚ, 0 < m → reading = some idle →
      ((m : ℚ) * 60 ≤ idle → s.pausedAt = none →
          maybe_update_idle_pause m reading now s =
            { s with pausedAt := some now }) ∧
      ((m : ℚ) * 60 ≤ idle → s.pausedAt.isSome →
          maybe_update_idle_pause m reading now s = s) ∧
      (idle < (m : ℚ) * 60 → s.pausedAt.isSome →
          maybe_update_idle_pause m reading now s =
            { s with pausedAt := none }) ∧
      (idle < (m : ℚ) * 60 → s.pausedAt = none →
          maybe_update_idle_pause m reading now s = s)) := by
  refine ⟨?_, ?_, ?_⟩
  · intro hm
    unfold maybe_update_idle_pause
    simp [hm]
  · intro hr
    unfold maybe_update_idle_pause
    rw [hr]
    split <;> rfl
  · intro idle hm hr
    have hm' : ¬ m ≤ 0 := not_le.mpr hm
    refine ⟨?_, ?_, ?_, ?_⟩
    · intro hidle hp
      unfold maybe_update_idle_pause
      rw [hr]
      simp [hm', hidle, hp]
    · intro hidle hp
      have hp' : s.pausedAt ≠ none := by
        cases hps : s.pausedAt with
        | none => rw [hps] at hp; simp at hp
        | some t => simp
      have hidle' : ¬ idle < (m : ℚ) * 60 := not_lt.mpr hidle
      unfold maybe_update_idle_pause
      rw [hr]
      simp [hm', hidle, hidle', hp']
    · intro hidle hp
      have hp' : s.pausedAt ≠ none := by
        cases hps : s.pausedAt with
        | none => rw [hps] at hp; simp at hp
        | some t => simp
      have hidle' : ¬ (m : ℚ) * 60 ≤ idle := not_le.mpr hidle
      unfold maybe_update_idle_pause
      rw [hr]
      simp [hm', hidle, hidle', hp']
    · intro hidle hp
      have hidle' : ¬ (m : ℚ) * 60 ≤ idle := not_le.mpr hidle
      unfold maybe_update_idle_pause
      rw [hr]
      simp [hm', hidle', hp]

/-- Idle-policy evaluation never touches `is_active`. -/
theorem idle_pause_isActive (m : Int) (r : Option ℚ) (now : Nat)
    (s : Session) :
    (maybe_update_idle_pause m r now s).isActive = s.isActive := by
  unfold maybe_update_idle_pause
  dsimp only
  repeat' split
  all_goals rfl

/-- Redaction, optimization and transmission never touch `is_active`. -/
theorem redactStep_isActive (env : TickEnv) (s : Session) :
    (redactStep env s).sess.isActive = s.isActive := by
  unfold redactStep optimizeStep transmitStep
  repeat' split
  all_goals rfl

/-- A capture tick never touches `is_active`. -/
theorem perform_capture_isActive (cd : Bool) (env : TickEnv) (s : Session) :
    (perform_capture cd env s).sess.isActive = s.isActive := by
  unfold perform_capture
  repeat' split
  all_goals first
    | rfl
    | (rw [redactStep_isActive])

/-- Redaction, optimization and transmission never touch
`previous_screenshot_hash`. -/
theorem redactStep_hash (env : TickEnv) (s : Session) :
    (redactStep env s).sess.previousScreenshotHash =
      s.previousScreenshotHash := by
  unfold redactStep optimizeStep transmitStep
  repeat' split
  all_goals rfl

/-- Redaction, optimization and transmission never touch
`last_change_detected_at`. -/
theorem redactStep_lastChange (env : TickEnv) (s : Session) :
    (redactStep env s).sess.lastChangeDetectedAt =
      s.lastChangeDetectedAt := by
  unfold redactStep optimizeStep transmitStep
  repeat' split
  all_goals rfl

/-- File accounting of the redact-optimize-transmit tail of a tick: when
it does not raise, it has cleaned exactly the files it worked through;
when it raises, the file it was holding is left uncleaned. -/
theorem redactStep_cleanup (env : TickEnv) (s : Session) :
    ((redactStep env s).raised = false →
        (redactStep env s).cleaned = (redactStep env s).created) ∧
    ((redactStep env s).raised = true →
        ∃ f ∈ (redactStep env s).created,
          f ∉ (redactStep env s).cleaned) := by
  unfold redactStep optimizeStep transmitStep
  repeat' split
  all_goals refine ⟨fun h1 => ?_, fun h1 => ?_⟩
  all_goals dsimp only at h1 ⊢
  all_goals first
    | (exact absurd h1 (by decide))
    | rfl
    | decide

/-- Witness for C7: threshold 5 minutes, idle reading 300 seconds pauses
the unpaused sample session; a disabled threshold changes nothing. -/
theorem C7_idle_policy_witness :
    maybe_update_idle_pause 5 (some 300) 8 sampleSession =
      { sampleSession with pausedAt := some 8 } ∧
    maybe_update_idle_pause 0 (some 300) 8 sampleSession = sampleSession := by
  constructor
  · exact ((C7_idle_policy 5 (some 300) 8 sampleSession).2.2 300 (by norm_num)
      rfl).1 (by norm_num) rfl
  · exact (C7_idle_policy 0 (some 300) 8 sampleSession).1 (by norm_num)

/-- C2: when the worker loop reaches its capture step (stop event clear,
session present and active, max duration not hit, not paused after the
idle update), the tick result is recorded and the loop continues whether
or not `_perform_capture` raised: the exception is absorbed into the
`.ranTick` outcome, the session stays set, `is_active` stays true, and
the stop event stays clear — a tick failure never ends the Session. -/
theorem C2_tick_failure_keeps_session (cfg : LoopCfg) (st : ManagerState)
    (elapsedSec : Int) (idleReading : Option ℚ) (env : TickEnv) (s : Session)
    (hstop : st.stopEvent = false) (hs : st.activeSession = some s)
    (hactive : s.isActive = true)
    (hdur : ¬ (0 < cfg.maxDurationMinutes ∧
               60 * cfg.maxDurationMinutes ≤ elapsedSec))
    (hpause : (maybe_update_idle_pause cfg.idlePauseMinutes idleReading
                 env.now s).pausedAt = none) :
    capture_loop_iter cfg st elapsedSec idleReading env =
      ({ st with
           activeSession := some (perform_capture cfg.changeDetection env
             (maybe_update_idle_pause cfg.idlePauseMinutes idleReading
               env.now s)).sess },
       .ranTick (perform_capture cfg.changeDetection env
         (maybe_update_idle_pause cfg.idlePauseMinutes idleReading
           env.now s)).raised) ∧
    (perform_capture cfg.changeDetection env
       (maybe_update_idle_pause cfg.idlePauseMinutes idleReading
         env.now s)).sess.isActive = true ∧
    (capture_loop_iter cfg st elapsedSec idleReading env).1.activeSession ≠
      none ∧
    (capture_loop_iter cfg st elapsedSec idleReading env).1.stopEvent =
      false := by
  have hiter : capture_loop_iter cfg st elapsedSec idleReading env =
      ({ st with
           activeSession := some (perform_capture cfg.changeDetection env
             (maybe_update_idle_pause cfg.idlePauseMinutes idleReading
               env.now s)).sess },
       .ranTick (perform_capture cfg.changeDetection env
         (maybe_update_idle_pause cfg.idlePauseMinutes idleReading
           env.now s)).raised) := by
    unfold capture_loop_iter
    rw [hs]
    simp [hstop, hdur, hpause]
  refine ⟨hiter, ?_, ?_, ?_⟩
  · rw [perform_capture_isActive, idle_pause_isActive, hactive]
  · rw [hiter]
    simp
  · rw [hiter]
    exact hstop

/-- Witness for C2: with every hypothesis concrete, a tick whose screen
capture fails leaves the session active and the loop running. -/
theorem C2_tick_failure_keeps_session_witness :
    capture_loop_iter ⟨0, 0, false⟩ sampleState 10 none
        { okEnv with captureOk := false } =
      (sampleState, .ranTick true) := by
  have h := C2_tick_failure_keeps_session ⟨0, 0, false⟩ sampleState 10 none
    { okEnv with captureOk := false } sampleSession rfl rfl rfl
    (by decide) (by decide)
  rw [h.1]
  decide

/-- C3 counterexample: in a tick whose transmit fails, the artifact's
backing temp file (id 0) is created but never handed to
`cleanup_temp_file` before the tick ends — the exception propagates to
the loop with no cleanup, contradicting the claim that the backing
storage is discarded on every exit path. -/
theorem C3_counterexample :
    (perform_capture false transmitFailEnv sampleSession).raised = true ∧
    (perform_capture false transmitFailEnv sampleSession).transmitAttempted =
      true ∧
    (perform_capture false transmitFailEnv sampleSession).created = [0] ∧
    (perform_capture false transmitFailEnv sampleSession).cleaned = [] := by
  decide

/-- C3 amended: on every non-raising exit of a tick (success or
change-detection skip) each temp file created during the tick is cleaned
up by the end of the tick; but whenever the tick raises after a
successful capture (digest, redaction, optimization or transmit failure)
some file created in the tick is left uncleaned. -/
theorem C3_amended_cleanup (cd : Bool) (env : TickEnv) (s : Session) :
    ((perform_capture cd env s).raised = false →
        (perform_capture cd env s).cleaned =
          (perform_capture cd env s).created) ∧
    (env.captureOk = true → (perform_capture cd env s).raised = true →
        ∃ f ∈ (perform_capture cd env s).created,
          f ∉ (perform_capture cd env s).cleaned) := by
  unfold perform_capture
  repeat' split
  all_goals try exact
    ⟨(redactStep_cleanup _ _).1, fun _ => (redactStep_cleanup _ _).2⟩
  all_goals refine ⟨fun h1 => ?_, ?_⟩
  all_goals try intro hcap h1
  all_goals first
    | (exact absurd h1 (by decide))
    | rfl
    | decide
    | simp_all

/-- Witness for C3 amended: a fully successful tick cleans exactly what
it created. -/
theorem C3_amended_cleanup_witness :
    (perform_capture false okEnv sampleSession).cleaned =
      (perform_capture false okEnv sampleSession).created :=
  (C3_amended_cleanup false okEnv sampleSession).1 (by decide)

/-- C4 counterexample: with a 1-minute max duration and 90 elapsed
seconds, the worker iteration exits and marks the session inactive, but
the Session is not unset — `get_active_session` still returns it, not
none as the claim states. -/
theorem C4_counterexample :
    (capture_loop_iter mdCfg sampleState 90 none okEnv).2 = .exited ∧
    (capture_loop_iter mdCfg sampleState 90 none okEnv).1.stopEvent = true ∧
    get_active_session (capture_loop_iter mdCfg sampleState 90 none okEnv).1 =
      some { sampleSession with isActive := false } ∧
    get_active_session (capture_loop_iter mdCfg sampleState 90 none okEnv).1 ≠
      none := by
  decide

/-- C4 amended: when max duration is configured positive and the
wall-clock elapsed seconds (paused or not — the check never reads
`paused_at`) reach 60 × max-duration-minutes, the worker marks
`is_active := false`, raises the stop event and exits; the Session slot
is not cleared, so `get_active_session` keeps returning the now-inactive
Session until an explicit stop. -/
theorem C4_amended_max_duration (cfg : LoopCfg) (st : ManagerState)
    (elapsedSec : Int) (idleReading : Option ℚ) (env : TickEnv) (s : Session)
    (hstop : st.stopEvent = false) (hs : st.activeSession = some s)
    (h1 : 0 < cfg.maxDurationMinutes)
    (h2 : 60 * cfg.maxDurationMinutes ≤ elapsedSec) :
    capture_loop_iter cfg st elapsedSec idleReading env =
      ({ st with activeSession := some { s with isActive := false },
                 stopEvent := true }, .exited) ∧
    get_active_session
        (capture_loop_iter cfg st elapsedSec idleReading env).1 =
      some { s with isActive := false } := by
  have hiter : capture_loop_iter cfg st elapsedSec idleReading env =
      ({ st with activeSession := some { s with isActive := false },
                 stopEvent := true }, .exited) := by
    unfold capture_loop_iter
    rw [hs]
    simp [hstop, h1, h2]
  exact ⟨hiter, by rw [hiter]; rfl⟩

/-- Witness for C4 amended at the concrete max-duration scenario. -/
theorem C4_amended_max_duration_witness :
    capture_loop_iter mdCfg sampleState 90 none okEnv =
      ({ sampleState with
           activeSession := some { sampleSession with isActive := false },
           stopEvent := true }, .exited) :=
  (C4_amended_max_duration mdCfg sampleState 90 none okEnv sampleSession
    rfl rfl (by decide) (by decide)).1

/-- C5 counterexample: a tick that sees a changed digest (7 ≠ 5) stores
the new digest before transmitting; when the transmit then fails, the
stored digest (7) no longer describes the last transmitted capture (5) —
the failed-transmit tick did change which capture `previous_digest`
describes. -/
theorem C5_counterexample :
    (perform_capture true transmitFailEnv c5Session).transmitAttempted =
      true ∧
    (perform_capture true transmitFailEnv c5Session).raised = true ∧
    c5Session.previousScreenshotHash = some 5 ∧
    (perform_capture true transmitFailEnv c5Session).sess.previousScreenshotHash =
      some 7 ∧
    (perform_capture true transmitFailEnv c5Session).sess.captureCount =
      c5Session.captureCount := by
  decide

/-- C5 amended: with change detection on and a previous digest stored, a
tick whose new digest equals the previous one discards the artifact and
returns — no transmission attempt, no counter change, session unchanged;
a tick whose digest differs stores the new digest and stamps
`last_change_detected_at` at change-detection time, before (and
regardless of the outcome of) redaction, optimization and transmission. -/
theorem C5_amended_digest (env : TickEnv) (s : Session) (d : Nat)
    (hprev : s.previousScreenshotHash = some d)
    (hcap : env.captureOk = true) (hh : env.hashOk = true) :
    (env.hashValue = d →
        perform_capture true env s =
          { sess := s, raised := false, transmitAttempted := false,
            created := [0], cleaned := [0] }) ∧
    (env.hashValue ≠ d →
        (perform_capture true env s).sess.previousScreenshotHash =
          some env.hashValue ∧
        (perform_capture true env s).sess.lastChangeDetectedAt =
          some env.now) := by
  constructor
  · intro heq
    unfold perform_capture
    simp [hcap, hh, hprev, heq]
  · intro hne
    have hx : ¬ (some env.hashValue = s.previousScreenshotHash) := by
      rw [hprev]
      simpa using hne
    unfold perform_capture
    simp only [hcap, hh, hprev, hx]
    simp [hx]
    rw [if_neg hne]
    exact ⟨by rw [redactStep_hash], by rw [redactStep_lastChange]⟩

/-- Witness for C5 amended: a tick seeing the unchanged digest 5 skips
transmission and leaves the session as it was. -/
theorem C5_amended_digest_witness :
    perform_capture true { okEnv with hashValue := 5 } c5Session =
      { sess := c5Session, raised := false, transmitAttempted := false,
        created := [0], cleaned := [0] } :=
  (C5_amended_digest { okEnv with hashValue := 5 } c5Session 5 rfl rfl rfl).1
    rfl

/-- One quality-lowering step of the compression loop preserves an
unwarned outcome. -/
theorem optLoop_warned_q (encode : Nat → Nat → Nat) (budget fuel q s : Nat)
    (hq : 50 < q)
    (h : (optLoop encode budget fuel (q - 10) s).2.1 = false) :
    (optLoop encode budget (fuel + 1) q s).2.1 = false := by
  simp only [optLoop]
  by_cases h1 : encode q s ≤ budget
  · simp [h1]
  · by_cases h2 : fuel = 0
    · simp [h1, hq, h2]
    · simp [h1, hq, h2, h]

/-- One scale-lowering step of the compression loop preserves an unwarned
outcome as long as the next scale stays at or above the 0.3 floor. -/
theorem optLoop_warned_s (encode : Nat → Nat → Nat) (budget fuel q s : Nat)
    (hq : ¬ 50 < q) (hs : ¬ (s - 1 < 3))
    (h : (optLoop encode budget fuel q (s - 1)).2.1 = false) :
    (optLoop encode budget (fuel + 1) q s).2.1 = false := by
  simp only [optLoop]
  by_cases h1 : encode q s ≤ budget
  · simp [h1]
  · by_cases h2 : fuel = 0
    · simp [h1, hq, hs, h2]
    · simp [h1, hq, hs, h2, h]

/-- From the entry parameters (10 iterations, quality 85, scale 1.0) the
compression loop can never reach the scale floor: four quality steps and
five scale steps exhaust the iteration budget at scale 0.5, so the
warning flag is false on every path. -/
theorem optLoop_entry_warned (encode : Nat → Nat → Nat) (budget : Nat) :
    (optLoop encode budget 10 85 10).2.1 = false := by
  have h0 : (optLoop encode budget 0 45 4).2.1 = false := rfl
  have h1 : (optLoop encode budget 1 45 5).2.1 = false :=
    optLoop_warned_s encode budget 0 45 5 (by decide) (by decide) h0
  have h2 : (optLoop encode budget 2 45 6).2.1 = false :=
    optLoop_warned_s encode budget 1 45 6 (by decide) (by decide) h1
  have h3 : (optLoop encode budget 3 45 7).2.1 = false :=
    optLoop_warned_s encode budget 2 45 7 (by decide) (by decide) h2
  have h4 : (optLoop encode budget 4 45 8).2.1 = false :=
    optLoop_warned_s encode budget 3 45 8 (by decide) (by decide) h3
  have h5 : (optLoop encode budget 5 45 9).2.1 = false :=
    optLoop_warned_s encode budget 4 45 9 (by decide) (by decide) h4
  have h6 : (optLoop encode budget 6 45 10).2.1 = false :=
    optLoop_warned_s encode budget 5 45 10 (by decide) (by decide) h5
  have h7 : (optLoop encode budget 7 55 10).2.1 = false :=
    optLoop_warned_q encode budget 6 55 10 (by decide) h6
  have h8 : (optLoop encode budget 8 65 10).2.1 = false :=
    optLoop_warned_q encode budget 7 65 10 (by decide) h7
  have h9 : (optLoop encode budget 9 75 10).2.1 = false :=
    optLoop_warned_q encode budget 8 75 10 (by decide) h8
  exact optLoop_warned_q encode budget 9 85 10 (by decide) h9

/-- When the current setting already meets the budget, the loop stops at
this save with a size within budget. -/
theorem optLoop_le_enc (encode : Nat → Nat → Nat) (budget fuel q s : Nat)
    (h : encode q s ≤ budget) :
    (optLoop encode budget (fuel + 1) q s).1 ≤ budget := by
  simp only [optLoop]
  simp [h]

/-- A quality-lowering step preserves a within-budget outcome. -/
theorem optLoop_le_q (encode : Nat → Nat → Nat) (budget fuel q s : Nat)
    (hq : 50 < q) (hf : fuel ≠ 0)
    (h : (optLoop encode budget fuel (q - 10) s).1 ≤ budget) :
    (optLoop encode budget (fuel + 1) q s).1 ≤ budget := by
  simp only [optLoop]
  by_cases h1 : encode q s ≤ budget
  · simp [h1]
  · simp [h1, hq, hf, h]

/-- A scale-lowering step preserves a within-budget outcome. -/
theorem optLoop_le_s (encode : Nat → Nat → Nat) (budget fuel q s : Nat)
    (hq : ¬ 50 < q) (hs : ¬ (s - 1 < 3)) (hf : fuel ≠ 0)
    (h : (optLoop encode budget fuel q (s - 1)).1 ≤ budget) :
    (optLoop encode budget (fuel + 1) q s).1 ≤ budget := by
  simp only [optLoop]
  by_cases h1 : encode q s ≤ budget
  · simp [h1]
  · simp [h1, hq, hs, hf, h]

/-- If the final schedule point (quality 45, scale 0.5) encodes within
budget, the loop run from the entry parameters returns a size within
budget. -/
theorem optLoop_entry_le (encode : Nat → Nat → Nat) (budget : Nat)
    (hmin : encode 45 5 ≤ budget) :
    (optLoop encode budget 10 85 10).1 ≤ budget := by
  have h1 : (optLoop encode budget 1 45 5).1 ≤ budget :=
    optLoop_le_enc encode budget 0 45 5 hmin
  have h2 : (optLoop encode budget 2 45 6).1 ≤ budget :=
    optLoop_le_s encode budget 1 45 6 (by decide) (by decide) (by decide) h1
  have h3 : (optLoop encode budget 3 45 7).1 ≤ budget :=
    optLoop_le_s encode budget 2 45 7 (by decide) (by decide) (by decide) h2
  have h4 : (optLoop encode budget 4 45 8).1 ≤ budget :=
    optLoop_le_s encode budget 3 45 8 (by decide) (by decide) (by decide) h3
  have h5 : (optLoop encode budget 5 45 9).1 ≤ budget :=
    optLoop_le_s encode budget 4 45 9 (by decide) (by decide) (by decide) h4
  have h6 : (optLoop encode budget 6 45 10).1 ≤ budget :=
    optLoop_le_s encode budget 5 45 10 (by decide) (by decide) (by decide) h5
  have h7 : (optLoop encode budget 7 55 10).1 ≤ budget :=
    optLoop_le_q encode budget 6 55 10 (by decide) (by decide) h6
  have h8 : (optLoop encode budget 8 65 10).1 ≤ budget :=
    optLoop_le_q encode budget 7 65 10 (by decide) (by decide) h7
  have h9 : (optLoop encode budget 9 75 10).1 ≤ budget :=
    optLoop_le_q encode budget 8 75 10 (by decide) (by decide) h8
  exact optLoop_le_q encode budget 9 85 10 (by decide) (by decide) h9

/-- The loop performs at most `fuel` save iterations. -/
theorem optLoop_iterations_le (encode : Nat → Nat → Nat) (budget : Nat) :
    ∀ fuel q s, (optLoop encode budget fuel q s).2.2 ≤ fuel := by
  intro fuel
  induction fuel with
  | zero =>
    intro q s
    simp [optLoop]
  | succ n ih =>
    intro q s
    simp only [optLoop]
    by_cases h1 : encode q s ≤ budget
    · simp [h1]
    · by_cases hq : 50 < q
      · by_cases hf : n = 0
        · simp [h1, hq, hf]
        · simp [h1, hq, hf]
          exact ih _ _
      · by_cases hs : s - 1 < 3
        · simp [h1, hq, hs]
        · by_cases hf : n = 0
          · simp [h1, hq, hs, hf]
          · simp [h1, hq, hs, hf]
            exact ih _ _

/-- C6 counterexample: with a constant encoder that always produces 100
bytes and a budget of 50 (below everything the loop can achieve), the
compressor does not stop early and does not signal the scale-floor
warning: it exhausts all 10 iterations and returns the last result with
`warned = false`, contradicting the claim's warning-and-early-stop
behaviour for impossible budgets. -/
theorem C6_counterexample :
    optimize_image (fun _ _ => 100) 100 50 =
      { size := 100, warned := false, unchanged := false,
        iterationsUsed := 10 } := by
  decide

/-- C6 amended: the compressor returns the image unchanged when the
current size already meets the budget; it stops within the fixed cap of
10 iterations; when the budget is at least the encoding at the final
schedule point (quality 45, scale 0.5 — the smallest setting reachable
within the cap) it returns a size within budget; and the 0.3 scale-floor
warning can never fire from the entry parameters, because the five
quality steps (85 → 45) and five scale steps (1.0 → 0.5) exhaust the cap
before the floor is reached — an impossible budget therefore exhausts the
cap and returns the final result without a warning. -/
theorem C6_amended_compressor (encode : Nat → Nat → Nat)
    (currentSize budget : Nat) :
    (optimize_image encode currentSize budget).warned = false ∧
    (optimize_image encode currentSize budget).iterationsUsed ≤ 10 ∧
    (currentSize ≤ budget →
        optimize_image encode currentSize budget =
          { size := currentSize, warned := false, unchanged := true,
            iterationsUsed := 0 }) ∧
    (encode 45 5 ≤ budget →
        (optimize_image encode currentSize budget).size ≤ budget) := by
  by_cases hc : currentSize ≤ budget
  · refine ⟨?_, ?_, ?_, ?_⟩ <;> simp [optimize_image, hc]
  · refine ⟨?_, ?_, ?_, ?_⟩
    · simp only [optimize_image, if_neg hc]
      exact optLoop_entry_warned encode budget
    · simp only [optimize_image, if_neg hc]
      exact optLoop_iterations_le encode budget 10 85 10
    · intro h
      exact absurd h hc
    · intro hmin
      simp only [optimize_image, if_neg hc]
      exact optLoop_entry_le encode budget hmin

/-- Witness for C6 amended: a 200-byte image against a 150-byte budget
with a constant 100-byte encoder compresses within budget, and a 40-byte
image is returned unchanged. -/
theorem C6_amended_compressor_witness :
    (optimize_image (fun _ _ => 100) 200 150).size ≤ 150 ∧
    optimize_image (fun _ _ => 100) 40 150 =
      { size := 40, warned := false, unchanged := true,
        iterationsUsed := 0 } :=
  ⟨(C6_amended_compressor (fun _ _ => 100) 200 150).2.2.2 (by decide),
   (C6_amended_compressor (fun _ _ => 100) 40 150).2.2.1 (by decide)⟩

/-- A drawn zone rectangle blackens exactly the pixels it covers in the
closed-rectangle sense. -/
theorem drawRectBlack_eq (f : Nat → Nat → Nat) (z : PrivacyZone)
    (i j : Nat) :
    drawRectBlack f z.x z.y (z.x + z.width) (z.y + z.height) i j =
      if zoneCoversClosed z i j then 0 else f i j := rfl

/-- Painting the zone list blackens a pixel exactly when some applicable
zone covers it in the closed-rectangle sense, and leaves it unchanged
otherwise. -/
theorem paintZones_pix (m : Int) (zones : List PrivacyZone)
    (f : Nat → Nat → Nat) (i j : Nat) :
    paintZones m zones f i j =
      if ∃ z ∈ zones, (z.monitor = none ∨ z.monitor = some m) ∧
          zoneCoversClosed z i j
      then 0 else f i j := by
  induction zones generalizing f with
  | nil => simp [paintZones]
  | cons z zs ih =>
    simp only [paintZones]
    rw [ih]
    by_cases hex : ∃ z2 ∈ zs,
        (z2.monitor = none ∨ z2.monitor = some m) ∧ zoneCoversClosed z2 i j
    · rw [if_pos hex]
      obtain ⟨z2, hmem, hp⟩ := hex
      rw [if_pos ⟨z2, List.mem_cons_of_mem _ hmem, hp⟩]
    · rw [if_neg hex]
      by_cases hz : z.monitor = none ∨ z.monitor = some m
      · rw [if_pos hz]
        rw [drawRectBlack_eq]
        by_cases hcov : zoneCoversClosed z i j
        · rw [if_pos hcov, if_pos ⟨z, List.mem_cons_self z zs, hz, hcov⟩]
        · have hno : ¬ ∃ z2 ∈ z :: zs,
              (z2.monitor = none ∨ z2.monitor = some m) ∧
              zoneCoversClosed z2 i j := by
            rintro ⟨z2, hmem, hz2, hcov2⟩
            rcases List.mem_cons.mp hmem with hzz | hin
            · subst hzz
              exact hcov hcov2
            · exact hex ⟨z2, hin, hz2, hcov2⟩
          rw [if_neg hcov, if_neg hno]
      · have hno : ¬ ∃ z2 ∈ z :: zs,
            (z2.monitor = none ∨ z2.monitor = some m) ∧
            zoneCoversClosed z2 i j := by
          rintro ⟨z2, hmem, hz2, hcov2⟩
          rcases List.mem_cons.mp hmem with hzz | hin
          · subst hzz
            exact hz hz2
          · exact hex ⟨z2, hin, hz2, hcov2⟩
        rw [if_neg hz, if_neg hno]

/-- C9 counterexample: a 1-wide, 1-tall zone at the origin paints pixel
(1, 1) black even though (1, 1) lies outside the half-open rectangle
`[0, 1) × [0, 1)` the claim describes — PIL's rectangle fill includes
both corner points, so the painted region is one pixel wider and taller
than the claim states. -/
theorem C9_counterexample :
    ¬ zoneCoversHalfOpen unitZone 1 1 ∧
    sampleShot.img.pix 1 1 = 7 ∧
    (apply_privacy_zones sampleShot [unitZone]).img.pix 1 1 = 0 := by
  refine ⟨by decide, rfl, ?_⟩
  decide

/-- C9 amended: the Redactor marks every result redaction-processed,
keeps the image dimensions, returns the pixel data untouched for an
empty zone list, and otherwise paints opaque black exactly over the
union of the closed rectangles `[x, x+width] × [y, y+height]` (PIL
includes both rectangle corners) of the zones whose monitor is unset or
equals the artifact's source monitor, leaving all other pixels
unchanged. -/
theorem C9_amended_redactor (sc : ScreenshotImg)
    (zones : List PrivacyZone) :
    (apply_privacy_zones sc zones).privacyZonesApplied = true ∧
    (apply_privacy_zones sc zones).img.width = sc.img.width ∧
    (apply_privacy_zones sc zones).img.height = sc.img.height ∧
    (zones = [] → (apply_privacy_zones sc zones).img.pix = sc.img.pix) ∧
    (∀ i j,
      (apply_privacy_zones sc zones).img.pix i j =
        if ∃ z ∈ zones,
            (z.monitor = none ∨ z.monitor = some sc.sourceMonitor) ∧
            zoneCoversClosed z i j
        then 0 else sc.img.pix i j) := by
  by_cases hz : zones = []
  · subst hz
    refine ⟨rfl, rfl, rfl, fun _ => rfl, fun i j => ?_⟩
    simp [apply_privacy_zones]
  · refine ⟨?_, ?_, ?_, fun h => absurd h hz, fun i j => ?_⟩
    · simp [apply_privacy_zones, hz]
    · simp [apply_privacy_zones, hz]
    · simp [apply_privacy_zones, hz]
    · simp only [apply_privacy_zones, if_neg hz]
      exact paintZones_pix sc.sourceMonitor zones sc.img.pix i j

/-- Witness for C9 amended: with zero zones the sample screenshot's pixel
data comes back untouched. -/
theorem C9_amended_redactor_witness :
    (apply_privacy_zones sampleShot []).img.pix = sampleShot.img.pix :=
  (C9_amended_redactor sampleShot []).2.2.2.1 rfl

end Vision
